import Mathlib

/-!
Shallow embedding of the core of the edgehog-device-runtime repository and
proofs about it: the container state store transactions, the SQL
conversions of `DeploymentStatus`, the docker engine adapter for
containers, the forwarder session lifecycle with its backoff policy, and
the versioned configuration loader.

Machine integers are modelled as `Nat`/`Int` (no overflow is reachable in
the modelled code paths), fallible operations return `Except`, and the
async effects (engine HTTP calls, WebSocket connect attempts, property
publications) are modelled by explicit environment functions and event
traces.
-/

namespace StoreModels

/-- Status of a deployment as declared in
`edgehog-device-runtime-store/src/models.rs` (lines 318-326): a `repr(u8)`
enum with `Stopped = 0` and `Started = 1`. -/
inductive DeploymentStatus where
  | stopped
  | started
deriving Repr, DecidableEq

/-- The `From<DeploymentStatus> for i32` conversion in `models.rs`
(lines 337-341): `(value as u8).into()`, i.e. the declared discriminant. -/
def DeploymentStatus.toI32 : DeploymentStatus → Int
  | .stopped => 0
  | .started => 1

/-- The `FromSql` implementation for `DeploymentStatus` in `models.rs`
(lines 343-357): `0 => Started`, `3 => Stopped`, anything else is an
error carrying the unrecognized value. -/
def DeploymentStatus.fromSql (value : Int) : Except String DeploymentStatus :=
  if value = 0 then .ok .started
  else if value = 3 then .ok .stopped
  else .error ("unrecognized deployment status " ++ toString value)

end StoreModels

namespace Docker

/-- The subset of `bollard::errors::Error` distinguished by the adapter:
`DockerResponseServerError` carries the HTTP status code and a message;
every other variant of the bollard error enum is collapsed into `other`
(the adapter never matches on those variants). -/
inductive BollardError where
  | dockerResponseServerError (status_code : Nat) (message : String)
  | other (description : String)
deriving Repr, DecidableEq

/-- Error for the container operations
(`edgehog-device-runtime-containers/src/docker/container.rs`, lines 52-67). -/
inductive ContainerError where
  | create (e : BollardError)
  | inspect (e : BollardError)
  | remove (e : BollardError)
  | start (e : BollardError)
  | stop (e : BollardError)
  | image
deriving Repr, DecidableEq

/-- The fields of `bollard::models::ContainerInspectResponse` that the
adapter reads: only the optional engine-assigned id. -/
structure ContainerInspectResponse where
  id : Option String
deriving Repr, DecidableEq

/-- `ContainerId` from `docker/container.rs`: optional engine local id and
the stringified UUID used as the engine-visible name (the `name_cache`
field is a pure memoization of `name.to_string()` and is not modelled). -/
structure ContainerId where
  id : Option String
  name : String
deriving Repr, DecidableEq

/-- `ContainerId::container`: the local id, or the name if the id is
missing. -/
def ContainerId.container (c : ContainerId) : String :=
  match c.id with
  | some i => i
  | none => c.name

/-- `ContainerId::update`: replace the stored local id with the one
returned by the engine. -/
def ContainerId.update (c : ContainerId) (i : String) : ContainerId :=
  { c with id := some i }

/-- Engine client for inspect queries, modelled as the response the engine
gives to each queried name. -/
def InspectClient : Type := String → Except BollardError ContainerInspectResponse

/-- Engine client for the unit-returning operations (remove, start, stop),
modelled as the response the engine gives to each queried name. -/
def UnitClient : Type := String → Except BollardError Unit

/-- `ContainerId::inspect_with` (container.rs, lines 152-183): query the
engine by `name`; 404 is normalized to `Ok(None)`, any other error is
wrapped in `ContainerError::Inspect`, and on success an id carried by the
reply replaces the stored local id. Returns the updated `ContainerId`
together with the result. The source pattern-matches
`DockerResponseServerError with status_code 404`; this is rendered as a
test on the carried status code. -/
def ContainerId.inspect_with (c : ContainerId) (client : InspectClient) (name : String) :
    ContainerId × Except ContainerError (Option ContainerInspectResponse) :=
  match client name with
  | .ok container =>
    let c1 :=
      match container.id with
      | some i => c.update i
      | none => c
    (c1, .ok (some container))
  | .error (.dockerResponseServerError st m) =>
    if st = 404 then (c, .ok none)
    else (c, .error (.inspect (.dockerResponseServerError st m)))
  | .error err => (c, .error (.inspect err))

/-- `ContainerId::inspect` (container.rs, lines 128-146): when a local id
is stored, query by it first; if that query reports the container absent,
retry by the stringified UUID name; errors propagate. -/
def ContainerId.inspect (c : ContainerId) (client : InspectClient) :
    ContainerId × Except ContainerError (Option ContainerInspectResponse) :=
  match c.id with
  | some i =>
    match c.inspect_with client i with
    | (c1, .ok (some response)) => (c1, .ok (some response))
    | (c1, .ok none) => c1.inspect_with client c1.name
    | (c1, .error e) => (c1, .error e)
  | none => c.inspect_with client c.name

/-- `ContainerId::remove` (container.rs, lines 189-213): 404 is normalized
to `Ok(None)`, other errors are wrapped in `ContainerError::Remove`. -/
def ContainerId.remove (c : ContainerId) (client : UnitClient) :
    Except ContainerError (Option Unit) :=
  match client c.container with
  | .ok () => .ok (some ())
  | .error (.dockerResponseServerError st m) =>
    if st = 404 then .ok none
    else .error (.remove (.dockerResponseServerError st m))
  | .error err => .error (.remove err)

/-- `ContainerId::start` (container.rs, lines 219-238): 404 is normalized
to `Ok(None)`, other errors are wrapped in `ContainerError::Start`. -/
def ContainerId.start (c : ContainerId) (client : UnitClient) :
    Except ContainerError (Option Unit) :=
  match client c.container with
  | .ok () => .ok (some ())
  | .error (.dockerResponseServerError st m) =>
    if st = 404 then .ok none
    else .error (.start (.dockerResponseServerError st m))
  | .error err => .error (.start err)

/-- `ContainerId::stop` (container.rs, lines 244-269): 304 is normalized to
`Ok(Some(()))`, 404 to `Ok(None)`; note that the source wraps every other
error in `ContainerError::Start`, not `Stop` (line 267). -/
def ContainerId.stop (c : ContainerId) (client : UnitClient) :
    Except ContainerError (Option Unit) :=
  match client c.container with
  | .ok () => .ok (some ())
  | .error (.dockerResponseServerError st m) =>
    if st = 304 then .ok (some ())
    else if st = 404 then .ok none
    else .error (.start (.dockerResponseServerError st m))
  | .error err => .error (.start err)

end Docker

namespace Store

/-- UUIDs (`SqlUuid`) modelled as naturals. -/
abbrev Uuid := Nat

/-- Image row (store `models.rs`). -/
structure Image where
  id : Uuid
  local_id : Option String
  pulled : Bool
  reference : String
  registry_auth : Option String
deriving Repr, DecidableEq

/-- Network row (store `models.rs`). -/
structure Network where
  id : Uuid
  local_id : Option String
  created : Bool
  driver : String
  internal : Bool
  enable_ipv6 : Bool
deriving Repr, DecidableEq

/-- Network driver option row (store `models.rs`). -/
structure NetworkDriverOpts where
  network_id : Uuid
  name : String
  value : Option String
deriving Repr, DecidableEq

/-- Volume row (store `models.rs`). -/
structure Volume where
  id : Uuid
  created : Bool
  driver : String
deriving Repr, DecidableEq

/-- Status of a container (store `models.rs`), default `Received`. -/
inductive ContainerStatus where
  | received
  | created
  | running
  | stopped
deriving Repr, DecidableEq

/-- Container row (store `models.rs`). -/
structure Container where
  id : Uuid
  local_id : Option String
  image_id : Option Uuid
  status : ContainerStatus
  network_mode : String
  hostname : String
  restart_policy : String
  privileged : Bool
deriving Repr, DecidableEq

/-- Missing image reference for a container. -/
structure ContainerMissingImage where
  container_id : Uuid
  image_id : Uuid
deriving Repr, DecidableEq

/-- Network used by a container. -/
structure ContainerNetwork where
  container_id : Uuid
  network_id : Uuid
deriving Repr, DecidableEq

/-- Missing network reference for a container. -/
structure ContainerMissingNetwork where
  container_id : Uuid
  network_id : Uuid
deriving Repr, DecidableEq

/-- Volume used by a container. -/
structure ContainerVolume where
  container_id : Uuid
  volume_id : Uuid
deriving Repr, DecidableEq

/-- Missing volume reference for a container. -/
structure ContainerMissingVolume where
  container_id : Uuid
  volume_id : Uuid
deriving Repr, DecidableEq

/-- Environment variable row for a container. -/
structure ContainerEnv where
  container_id : Uuid
  value : String
deriving Repr, DecidableEq

/-- Bind mount row for a container. -/
structure ContainerBinds where
  container_id : Uuid
  value : String
deriving Repr, DecidableEq

/-- Port binding row for a container. -/
structure ContainerPortBinds where
  container_id : Uuid
  port : String
  host_ip : Option String
  host_port : Option String
deriving Repr, DecidableEq

/-- Host binding of one container port (`docker/container.rs` `Binding`). -/
structure Binding where
  host_ip : Option String
  host_port : Option Nat
deriving Repr, DecidableEq

/-- The SQLite database state: one list of rows per table touched by the
`StateStore` transactions of
`edgehog-device-runtime-containers/src/store/db.rs`. -/
structure StoreState where
  images : List Image := []
  networks : List Network := []
  network_driver_opts : List NetworkDriverOpts := []
  volumes : List Volume := []
  containers : List Container := []
  container_missing_images : List ContainerMissingImage := []
  container_networks : List ContainerNetwork := []
  container_missing_networks : List ContainerMissingNetwork := []
  container_volumes : List ContainerVolume := []
  container_missing_volumes : List ContainerMissingVolume := []
  container_env : List ContainerEnv := []
  container_binds : List ContainerBinds := []
  container_port_bindings : List ContainerPortBinds := []
deriving Repr, DecidableEq

/-- SQL `INSERT OR IGNORE` on a table with primary key `key`: the row is
appended unless a row with the same key is already present. -/
def insertOrIgnore {α κ : Type} [BEq κ] (key : α → κ) (l : List α) (x : α) : List α :=
  if l.any (fun r => key r == key x) then l else l ++ [x]

/-- The `CreateImage` request (`requests/image.rs`), restricted to the
fields used by the store. -/
structure CreateImage where
  id : Uuid
  reference : String
  registry_auth : Option String
deriving Repr, DecidableEq

/-- `From<CreateImage> for Image` (store/db.rs lines 273-283). -/
def Image.fromCreate (value : CreateImage) : Image :=
  { id := value.id, local_id := none, pulled := false,
    reference := value.reference, registry_auth := value.registry_auth }

/-- The `CreateNetwork` request fields used by the store. -/
structure CreateNetwork where
  id : Uuid
  driver : String
  internal : Bool
  enable_ipv6 : Bool
deriving Repr, DecidableEq

/-- `From<CreateNetwork>` for the network row (store/db.rs lines 285-304). -/
def Network.fromCreate (value : CreateNetwork) : Network :=
  { id := value.id, local_id := none, created := false,
    driver := value.driver, internal := value.internal,
    enable_ipv6 := value.enable_ipv6 }

/-- The `CreateContainer` request fields used by the store. -/
structure CreateContainer where
  id : Uuid
  image_id : Uuid
  network_ids : List Uuid
  volume_ids : List Uuid
  hostname : String
  restart_policy : String
  network_mode : String
  privileged : Bool
  env : List String
  binds : List String
deriving Repr, DecidableEq

/-- `From<&CreateContainer> for Container` (store/db.rs lines 306-334):
`image_id` starts out as `Some`. -/
def Container.fromCreate (value : CreateContainer) : Container :=
  { id := value.id, local_id := none, image_id := some value.image_id,
    status := .received, network_mode := value.network_mode,
    hostname := value.hostname, restart_policy := value.restart_policy,
    privileged := value.privileged }

/-- `Image::exists` query. -/
def StoreState.imageExists (s : StoreState) (i : Uuid) : Bool :=
  s.images.any (fun r => r.id == i)

/-- `Network::exists` query. -/
def StoreState.networkExists (s : StoreState) (i : Uuid) : Bool :=
  s.networks.any (fun r => r.id == i)

/-- `Volume::exists` query. -/
def StoreState.volumeExists (s : StoreState) (i : Uuid) : Bool :=
  s.volumes.any (fun r => r.id == i)

/-- The diesel subquery of `create_image`:
`ContainerMissingImage::find_by_image(&image.id).select(container_id)`. -/
def promotedIds (s : StoreState) (iid : Uuid) : List Uuid :=
  (s.container_missing_images.filter (fun r => r.image_id == iid)).map
    (fun r => r.container_id)

/-- `StateStore::create_image` (store/db.rs lines 70-96): insert-or-ignore
the image, set `image_id` of every container listed in
`container_missing_images` for this image, then delete those missing
rows — all in one transaction. -/
def create_image (s : StoreState) (req : CreateImage) : StoreState :=
  let image := Image.fromCreate req
  let images1 := insertOrIgnore Image.id s.images image
  let containers1 := s.containers.map fun c =>
    if (promotedIds s image.id).contains c.id then { c with image_id := some image.id }
    else c
  let cmi1 := s.container_missing_images.filter (fun r => !(r.image_id == image.id))
  { s with images := images1, containers := containers1,
           container_missing_images := cmi1 }

/-- `StateStore::create_network` (store/db.rs lines 100-126):
insert-or-ignore the network and its driver options, promote the matching
`container_missing_networks` rows into `container_networks`, then delete
them — all in one transaction. -/
def create_network (s : StoreState) (req : CreateNetwork)
    (opts : List NetworkDriverOpts) : StoreState :=
  let network := Network.fromCreate req
  let networks1 := insertOrIgnore Network.id s.networks network
  let ndo1 := opts.foldl
    (fun acc o => insertOrIgnore (fun r => (r.network_id, r.name)) acc o)
    s.network_driver_opts
  let promoted := s.container_missing_networks.filter
    (fun r => r.network_id == network.id)
  let cn1 := promoted.foldl
    (fun acc r => insertOrIgnore (fun x => (x.container_id, x.network_id)) acc
      { container_id := r.container_id, network_id := r.network_id })
    s.container_networks
  let cmn1 := s.container_missing_networks.filter
    (fun r => !(r.network_id == network.id))
  { s with networks := networks1, network_driver_opts := ndo1,
           container_networks := cn1, container_missing_networks := cmn1 }

/-- `StateStore::create_volume` (store/db.rs lines 129-139): the volume row
is insert-or-ignored, and nothing else happens — the source neither
promotes `container_missing_volumes` rows nor deletes them, and it runs
under `for_write`, not `for_write_transaction`. -/
def create_volume (s : StoreState) (volume : Volume) : StoreState :=
  { s with volumes := insertOrIgnore Volume.id s.volumes volume }

/-- One step of the network loop of `create_container` (store/db.rs lines
223-243): into `container_networks` if the network exists, otherwise into
`container_missing_networks`. -/
def netStep (cid : Uuid) (acc : StoreState) (network_id : Uuid) : StoreState :=
  if acc.networkExists network_id then
    let cn := insertOrIgnore (fun x => (x.container_id, x.network_id))
      acc.container_networks { container_id := cid, network_id := network_id }
    { acc with container_networks := cn }
  else
    let cmn := insertOrIgnore (fun x => (x.container_id, x.network_id))
      acc.container_missing_networks { container_id := cid, network_id := network_id }
    { acc with container_missing_networks := cmn }

/-- One step of the volume loop of `create_container` (store/db.rs lines
245-265): into `container_volumes` if the volume exists, otherwise into
`container_missing_volumes`. -/
def volStep (cid : Uuid) (acc : StoreState) (volume_id : Uuid) : StoreState :=
  if acc.volumeExists volume_id then
    let cv := insertOrIgnore (fun x => (x.container_id, x.volume_id))
      acc.container_volumes { container_id := cid, volume_id := volume_id }
    { acc with container_volumes := cv }
  else
    let cmv := insertOrIgnore (fun x => (x.container_id, x.volume_id))
      acc.container_missing_volumes { container_id := cid, volume_id := volume_id }
    { acc with container_missing_volumes := cmv }

/-- `StateStore::create_container` (store/db.rs lines 144-270): when the
referenced image does not exist, record a `container_missing_images` row
and null the container's `image_id`; insert-or-ignore the container, its
env, binds and port-binding rows; then resolve each referenced network and
volume into the real or the missing join table — all in one transaction. -/
def create_container (s : StoreState) (value : CreateContainer)
    (port_bindings : List (String × List Binding)) : StoreState :=
  let image_exists := s.imageExists value.image_id
  let s1 :=
    if image_exists then s
    else
      let cmi := insertOrIgnore (fun r => (r.container_id, r.image_id))
        s.container_missing_images
        { container_id := value.id, image_id := value.image_id }
      { s with container_missing_images := cmi }
  let container :=
    if image_exists then Container.fromCreate value
    else { Container.fromCreate value with image_id := none }
  let s2 := { s1 with containers := insertOrIgnore Container.id s1.containers container }
  let envs := value.env.map fun v => ContainerEnv.mk value.id v
  let env_rows := envs.foldl
    (fun acc e => insertOrIgnore (fun r => (r.container_id, r.value)) acc e)
    s2.container_env
  let s3 := { s2 with container_env := env_rows }
  let bind_vals := value.binds.map fun v => ContainerBinds.mk value.id v
  let bind_rows := bind_vals.foldl
    (fun acc e => insertOrIgnore (fun r => (r.container_id, r.value)) acc e)
    s3.container_binds
  let s4 := { s3 with container_binds := bind_rows }
  let prt := (port_bindings.map fun pb => pb.2.map fun bind =>
      ContainerPortBinds.mk value.id pb.1 bind.host_ip
        (bind.host_port.map (fun p => toString p))).flatten
  let prt_rows := prt.foldl
    (fun acc e =>
      insertOrIgnore (fun r => (r.container_id, r.port, r.host_ip, r.host_port)) acc e)
    s4.container_port_bindings
  let s5 := { s4 with container_port_bindings := prt_rows }
  let s6 := value.network_ids.foldl (netStep value.id) s5
  value.volume_ids.foldl (volStep value.id) s6

/-- The `container_missing_images` rows of a given container. -/
def missingImagesFor (s : StoreState) (cid : Uuid) : List ContainerMissingImage :=
  s.container_missing_images.filter (fun r => r.container_id == cid)

/-- The per-container half of the reference invariant: either a non-null
`image_id` of an existing image and no missing-image row, or a null
`image_id` and exactly one missing-image row. -/
def containerImageOk (s : StoreState) (c : Container) : Prop :=
  match c.image_id with
  | some i => s.imageExists i = true ∧ missingImagesFor s c.id = []
  | none => (missingImagesFor s c.id).length = 1

instance (s : StoreState) (c : Container) : Decidable (containerImageOk s c) := by
  unfold containerImageOk
  cases c.image_id <;> exact inferInstance

/-- The container-to-image reference invariant of the spec: every container
row satisfies `containerImageOk`, never both sides and never neither;
moreover missing-image rows always reference an absent image and an
existing container. -/
def ImageRefInv (s : StoreState) : Prop :=
  (∀ c ∈ s.containers, containerImageOk s c) ∧
  (∀ r ∈ s.container_missing_images,
    s.imageExists r.image_id = false ∧
    s.containers.any (fun c => c.id == r.container_id) = true)

instance (s : StoreState) : Decidable (ImageRefInv s) := by
  unfold ImageRefInv
  exact inferInstance

end Store

/-- Concrete requests exercising the store transactions. -/
def c1Request1 : Store.CreateContainer :=
  { id := 10, image_id := 1, network_ids := [], volume_ids := [],
    hostname := "h", restart_policy := "no", network_mode := "bridge",
    privileged := false, env := [], binds := [] }

/-- The same container UUID re-sent with a different (absent) image UUID. -/
def c1Request2 : Store.CreateContainer := { c1Request1 with image_id := 2 }

/-- State after `create_image(1)`. -/
def c1Step1 : Store.StoreState :=
  Store.create_image {} { id := 1, reference := "img-a", registry_auth := none }

/-- State after `create_image(1); create_container(10, image 1)`. -/
def c1Step2 : Store.StoreState := Store.create_container c1Step1 c1Request1 []

/-- State after additionally re-sending container 10 with absent image 2. -/
def c1Step3 : Store.StoreState := Store.create_container c1Step2 c1Request2 []

/-- A container request referencing an absent network 7 and an absent
volume 5. -/
def c2Request : Store.CreateContainer :=
  { id := 10, image_id := 1, network_ids := [7], volume_ids := [5],
    hostname := "h", restart_policy := "no", network_mode := "bridge",
    privileged := false, env := [], binds := [] }

/-- State after `create_container` with the absent references. -/
def c2Step1 : Store.StoreState := Store.create_container {} c2Request []

/-- State after the later `create_volume(5)`. -/
def c2Step2 : Store.StoreState :=
  Store.create_volume c2Step1 { id := 5, created := false, driver := "local" }

/-- State after instead running the later `create_network(7)`. -/
def c2Step2n : Store.StoreState :=
  Store.create_network c2Step1
    { id := 7, driver := "bridge", internal := false, enable_ipv6 := false } []

/-- A concrete inspect client: 404 for the stale local id, success carrying
a fresh engine id for any other name. -/
def c8client : Docker.InspectClient := fun n =>
  if n = "lid" then .error (.dockerResponseServerError 404 "nf")
  else .ok { id := some "newid" }

namespace Fwd

/-- The tungstenite errors the connection manager distinguishes when
connecting: an HTTP handshake response (carrying its status code), or any
other transport error. -/
inductive TungError where
  | http (status : Nat)
  | other (description : String)
deriving Repr, DecidableEq

/-- `connections_manager.rs` `Error` (lines 30-53); payloads not read by
the modelled paths are dropped. -/
inductive Error where
  | webSocket (e : TungError)
  | protobuf
  | connection
  | wrongMessage (id : Nat)
  | connectionNotFound (id : Nat)
  | idAlreadyUsed (id : Nat)
  | unsupported
  | tokenNotFound
  | tokenAlreadyUsed (token : String)
  | backOff
deriving Repr, DecidableEq

/-- `str::trim_start_matches("session=")`: repeatedly strip the prefix. -/
def dropSessionPrefix : List Char → List Char
  | 's' :: 'e' :: 's' :: 's' :: 'i' :: 'o' :: 'n' :: '=' :: rest => dropSessionPrefix rest
  | l => l

/-- The token extraction of `get_token` on a query string. -/
def trim_start_matches_session (s : String) : String :=
  String.mk (dropSessionPrefix s.toList)

/-- A relay URL, reduced to the part `get_token` reads: `url.query()`. -/
structure RelayUrl where
  query : Option String
deriving Repr, DecidableEq

/-- `get_token` (connections_manager.rs lines 313-317). -/
def get_token (url : RelayUrl) : Except Error String :=
  match url.query with
  | some q => .ok (trim_start_matches_session q)
  | none => .error .tokenNotFound

/-- `backoff::ExponentialBackoff`, fields in milliseconds with the
multiplier and randomization factor as rationals. -/
structure ExponentialBackoff where
  initial_interval_millis : Nat
  randomization_factor : Rat
  multiplier : Rat
  max_interval_millis : Nat
  max_elapsed_time_millis : Option Nat
deriving Repr, DecidableEq

/-- `ExponentialBackoff::default()` of the backoff crate (version 0.4),
the policy `ws_connect` passes to `backoff::future::retry`
(connections_manager.rs line 100). The crate's documented default
constants: initial interval 500 ms, randomization factor 0.5,
multiplier 1.5, max interval 60 s, and a maximum elapsed time of
900 000 ms (15 minutes) after which retrying gives up. -/
def ExponentialBackoff.default : ExponentialBackoff :=
  { initial_interval_millis := 500, randomization_factor := 1/2,
    multiplier := 3/2, max_interval_millis := 60000,
    max_elapsed_time_millis := some 900000 }

/-- The backoff policy `ws_connect` constructs. -/
def ws_connect_policy : ExponentialBackoff := ExponentialBackoff.default

/-- Outcome of one `connect_async` attempt. -/
inductive ConnectAttempt where
  | ok
  | err (e : TungError)
deriving Repr, DecidableEq

/-- `StatusCode::is_client_error`: 400-499. -/
def status_is_client_error (st : Nat) : Bool :=
  decide (400 ≤ st) && decide (st < 500)

/-- The retry loop of `backoff::future::retry` as used by `ws_connect`
(connections_manager.rs lines 95-128): attempt `i` succeeding ends the
loop; an HTTP response with a client-error status is a permanent error
(`TokenAlreadyUsed(get_token(url)?)`) that stops backoff immediately; any
other tungstenite error is transient and retried. `fuel` bounds the
transient retries, reflecting the policy's finite maximum elapsed time. -/
def retryConnect (url : RelayUrl) (attempts : Nat → ConnectAttempt) (fuel i : Nat) :
    Except Error Unit :=
  match attempts i with
  | .ok => .ok ()
  | .err (.http st) =>
    if status_is_client_error st then
      match get_token url with
      | .ok tok => .error (.tokenAlreadyUsed tok)
      | .error e => .error e
    else
      match fuel with
      | 0 => .error (.webSocket (.http st))
      | f + 1 => retryConnect url attempts f (i + 1)
  | .err e =>
    match fuel with
    | 0 => .error (.webSocket e)
    | f + 1 => retryConnect url attempts f (i + 1)

/-- `ConnectionsManager::ws_connect`: run the backoff retry loop from the
first attempt. -/
def ws_connect (fuel : Nat) (attempts : Nat → ConnectAttempt) (url : RelayUrl) :
    Except Error Unit :=
  retryConnect url attempts fuel 0

/-- The session states of `forwarder.rs` (lines 88-93). -/
inductive SessionStatus where
  | connecting
  | connected
  | disconnected
deriving Repr, DecidableEq

/-- Astarte property values: a string, or the unset marker. -/
inductive AstarteValue where
  | str (s : String)
  | unset
deriving Repr, DecidableEq

/-- `From<SessionState> for AstarteType` (forwarder.rs lines 134-143):
Connecting and Connected become strings, Disconnected becomes `Unset`. -/
def sessionStateToAstarte : SessionStatus → AstarteValue
  | .connecting => .str "Connecting"
  | .connected => .str "Connected"
  | .disconnected => .unset

/-- Observable events of a session task: a `ForwarderSessionState`
property publication for the token, or a frame written to the relay
WebSocket. -/
inductive Event where
  | sendProp (token : String) (value : AstarteValue)
  | wsFrame
deriving Repr, DecidableEq

/-- `SessionState::send` (forwarder.rs lines 145-158) on the
`/{token}/status` path. -/
def sendState (token : String) (st : SessionStatus) : Event :=
  .sendProp token (sessionStateToAstarte st)

/-- Environment of a session task: the outcome of each `connect_async`
attempt, the retry fuel, and the observable behaviour of the
connected-phase loop of `Forwarder::connect` (its `handle_connections` /
`reconnect` cycle), which is never entered when the first connect fails. -/
structure SessionEnv where
  fuel : Nat
  attempts : Nat → ConnectAttempt
  connectedPhase : List Event × Except Error Unit

/-- `Forwarder::connect` (forwarder.rs lines 291-328): establish the
WebSocket via `ws_connect`; on success report `Connected` and run the
connection loop; on failure return the error having produced no events. -/
def Forwarder.connect (env : SessionEnv) (url : RelayUrl) (token : String) :
    List Event × Except Error Unit :=
  match ws_connect env.fuel env.attempts url with
  | .error e => ([], .error e)
  | .ok () => (sendState token .connected :: env.connectedPhase.1, env.connectedPhase.2)

/-- `Forwarder::handle_session` (forwarder.rs lines 264-289): publish
`Connecting`, run `connect` (whose error is only logged), then publish the
unset (`Disconnected`) value and return `Ok(())`. -/
def Forwarder.handle_session (env : SessionEnv) (url : RelayUrl) (token : String) :
    List Event × Except Error Unit :=
  let conn := Forwarder.connect env url token
  (sendState token .connecting :: conn.1 ++ [sendState token .disconnected], .ok ())

end Fwd

namespace Cfg

/-- TOML values, as produced by parsing a document into a generic
`toml::Table` (an association list of keys to values). -/
inductive Toml where
  | str (s : String)
  | int (n : Int)
  | boolean (b : Bool)
  | table (kvs : List (String × Toml))
  | arr (elems : List Toml)

/-- `Table::get`: the value stored under a key. -/
def lookupKey (kvs : List (String × Toml)) (k : String) : Option Toml :=
  (kvs.find? (fun kv => kv.1 == k)).map (fun kv => kv.2)

/-- `Table::contains_key`. -/
def containsKey (kvs : List (String × Toml)) (k : String) : Bool :=
  kvs.any (fun kv => kv.1 == k)

/-- Deserialization errors (`toml::de::Error`, reduced to its kinds). -/
inductive DeError where
  | missingField (k : String)
  | unknownField (k : String)
  | invalidType (k : String)
  | unknownVariant (v : String)
  | invalid (m : String)
deriving Repr, DecidableEq

/-- `v1::ContainersConfig`: `required` (default false) and `max_retries`
(default 10), `deny_unknown_fields`. -/
structure ContainersConfig where
  required : Bool
  max_retries : Nat
deriving Repr, DecidableEq

/-- `v1::SdkCredentials` (snake_case): a credentials secret or a pairing
token, flattened into `DeviceSdk`. -/
inductive SdkCredentials where
  | credentialsSecret (s : String)
  | pairingToken (s : String)
deriving Repr, DecidableEq

/-- `v1::DeviceSdk` (URL syntactic validation of `pairing_url` is
abstracted: the raw string is kept). -/
structure DeviceSdk where
  realm : String
  device_id : String
  credentials : SdkCredentials
  pairing_url : String
  ignore_ssl : Bool
deriving Repr, DecidableEq

/-- `v1::AstarteMessageHub`. -/
structure AstarteMessageHub where
  endpoint : String
deriving Repr, DecidableEq

/-- `v1::AstarteLibrary`, internally tagged by `astarte_library` with
kebab-case variant names. -/
inductive AstarteLibrary where
  | astarteDeviceSdk (sdk : DeviceSdk)
  | astarteMessageHub (hub : AstarteMessageHub)
deriving Repr, DecidableEq

/-- `v1::Config` (v1/mod.rs lines 27-33): the flattened `AstarteLibrary`
plus the required `containers` table, with `deny_unknown_fields`. -/
structure V1Config where
  astarte_library : AstarteLibrary
  containers : ContainersConfig
deriving Repr, DecidableEq

/-- The versioned `Config` union (config lib.rs lines 39-44), tagged by
`version` with lowercase variant names: `"v1"` selects `V1`. -/
inductive Config where
  | v1 (c : V1Config)
deriving Repr, DecidableEq

/-- `legacy::AstarteLibrary` (kebab-case unit variants). -/
inductive LegacyAstarteLibrary where
  | astarteDeviceSdk
  | astarteMessageHub
deriving Repr, DecidableEq

/-- `legacy::DeviceSdkArgs` (all fields optional). -/
structure DeviceSdkArgs where
  realm : Option String
  device_id : Option String
  credentials_secret : Option String
  pairing_token : Option String
  pairing_url : Option String
  ignore_ssl : Option Bool
deriving Repr, DecidableEq

/-- `legacy::MsgHubArgs`. -/
structure MsgHubArgs where
  endpoint : Option String
deriving Repr, DecidableEq

/-- `v1::Listener` (lowercase externally tagged): a unix socket path or a
TCP socket address (kept as its raw string). -/
inductive Listener where
  | unix (path : String)
  | socket (addr : String)
deriving Repr, DecidableEq

/-- `v1::Service`: `enabled` (default false) and `listener` (whose default
depends on the platform environment and is therefore a parameter of the
decoder). -/
structure Service where
  enabled : Bool
  listener : Listener
deriving Repr, DecidableEq

/-- `v1::Reboot` (lowercase), default `Default`. -/
inductive Reboot where
  | default
  | external
deriving Repr, DecidableEq

/-- `v1::OtaConfig`. -/
structure OtaConfig where
  reboot : Reboot
  streaming : Bool
deriving Repr, DecidableEq

/-- `v1::TelemetryInterface`; `period` is serialized as integer seconds
(default 60). -/
structure TelemetryInterface where
  interface_name : String
  enabled : Bool
  period : Nat
deriving Repr, DecidableEq

/-- `legacy::Config` (legacy/mod.rs lines 28-45): the pre-versioned flat
schema, every field optional, unknown fields ignored. -/
structure LegacyConfig where
  astarte_library : Option LegacyAstarteLibrary
  astarte_device_sdk : Option DeviceSdkArgs
  astarte_message_hub : Option MsgHubArgs
  containers : Option ContainersConfig
  service : Option Service
  ota : Option OtaConfig
  interfaces_directory : Option String
  store_directory : Option String
  download_directory : Option String
  telemetry_config : Option (List TelemetryInterface)
deriving Repr, DecidableEq

/-- `Compatible` (config lib.rs lines 49-55). -/
inductive Compatible where
  | versioned (c : Config)
  | backwards (c : LegacyConfig)
deriving Repr, DecidableEq

/-- Decode a string value. -/
def asStr (k : String) : Toml → Except DeError String
  | .str s => .ok s
  | _ => .error (.invalidType k)

/-- Decode a boolean value. -/
def asBool (k : String) : Toml → Except DeError Bool
  | .boolean b => .ok b
  | _ => .error (.invalidType k)

/-- Decode a non-negative integer value. -/
def asNat (k : String) : Toml → Except DeError Nat
  | .int n => if n < 0 then .error (.invalidType k) else .ok n.toNat
  | _ => .error (.invalidType k)

/-- Decode a table value. -/
def asTable (k : String) : Toml → Except DeError (List (String × Toml))
  | .table t => .ok t
  | _ => .error (.invalidType k)

/-- An optional field (`Option<T>` in the schema). -/
def optField {X : Type} (t : List (String × Toml)) (k : String)
    (f : Toml → Except DeError X) : Except DeError (Option X) :=
  match lookupKey t k with
  | none => .ok none
  | some v => (f v).map some

/-- A field with a serde default. -/
def fieldD {X : Type} (t : List (String × Toml)) (k : String)
    (f : Toml → Except DeError X) (d : X) : Except DeError X :=
  match lookupKey t k with
  | none => .ok d
  | some v => f v

/-- A required field. -/
def reqField {X : Type} (t : List (String × Toml)) (k : String)
    (f : Toml → Except DeError X) : Except DeError X :=
  match lookupKey t k with
  | none => .error (.missingField k)
  | some v => f v

/-- `deny_unknown_fields`: reject the first key outside the schema. -/
def checkNoUnknown (t : List (String × Toml)) (allowed : List String) :
    Except DeError Unit :=
  match t.find? (fun kv => !(allowed.contains kv.1)) with
  | some kv => .error (.unknownField kv.1)
  | none => .ok ()

/-- Decode `v1::ContainersConfig`. -/
def decodeContainers (t : List (String × Toml)) : Except DeError ContainersConfig := do
  let _u ← checkNoUnknown t ["required", "max_retries"]
  let required ← fieldD t "required" (asBool "required") false
  let max_retries ← fieldD t "max_retries" (asNat "max_retries") 10
  pure { required := required, max_retries := max_retries }

/-- Decode `v1::DeviceSdk` with its flattened credentials enum. -/
def decodeDeviceSdk (t : List (String × Toml)) : Except DeError DeviceSdk := do
  let _u ← checkNoUnknown t ["realm", "device_id", "pairing_url", "ignore_ssl",
    "credentials_secret", "pairing_token"]
  let realm ← reqField t "realm" (asStr "realm")
  let device_id ← reqField t "device_id" (asStr "device_id")
  let pairing_url ← reqField t "pairing_url" (asStr "pairing_url")
  let ignore_ssl ← fieldD t "ignore_ssl" (asBool "ignore_ssl") false
  let credentials ←
    match lookupKey t "credentials_secret", lookupKey t "pairing_token" with
    | some v, none => (asStr "credentials_secret" v).map SdkCredentials.credentialsSecret
    | none, some v => (asStr "pairing_token" v).map SdkCredentials.pairingToken
    | none, none => Except.error (.missingField "credentials_secret or pairing_token")
    | some _, some _ => Except.error (.invalid "expected exactly one credentials field")
  pure { realm := realm, device_id := device_id, credentials := credentials,
         pairing_url := pairing_url, ignore_ssl := ignore_ssl }

/-- Decode `v1::AstarteMessageHub`. -/
def decodeMessageHub (t : List (String × Toml)) : Except DeError AstarteMessageHub := do
  let endpoint ← reqField t "endpoint" (asStr "endpoint")
  pure { endpoint := endpoint }

/-- Decode the fields of `v1::Config` from the table without its `version`
tag: read the internal `astarte_library` tag and decode the selected
variant's field and `containers`. The source also declares
`deny_unknown_fields` on this struct, but pairs it with `serde(flatten)`
on the internally tagged `AstarteLibrary` enum, a combination the serde
documentation states is not supported: the flattened enum is deserialized
through a non-consuming view of the collected leftover keys, so whether
the derived deserializer then rejects those keys (including the tag key
itself, failing every well-formed v1 document) or silently ignores
foreign ones is not determined by the declarations. Accordingly no
top-level unknown-key check is modelled here, and no theorem in this file
depends on this function's treatment of top-level foreign keys. -/
def decodeV1 (t : List (String × Toml)) : Except DeError V1Config :=
  match lookupKey t "astarte_library" with
  | none => .error (.missingField "astarte_library")
  | some (.str "astarte-device-sdk") => do
    let sdkT ← reqField t "astarte_device_sdk" (asTable "astarte_device_sdk")
    let sdk ← decodeDeviceSdk sdkT
    let cT ← reqField t "containers" (asTable "containers")
    let cs ← decodeContainers cT
    pure { astarte_library := .astarteDeviceSdk sdk, containers := cs }
  | some (.str "astarte-message-hub") => do
    let hubT ← reqField t "astarte_message_hub" (asTable "astarte_message_hub")
    let hub ← decodeMessageHub hubT
    let cT ← reqField t "containers" (asTable "containers")
    let cs ← decodeContainers cT
    pure { astarte_library := .astarteMessageHub hub, containers := cs }
  | some (.str other) => .error (.unknownVariant other)
  | some _ => .error (.invalidType "astarte_library")

/-- Decode the tagged `Config` union: dispatch on the `version` key
(`"v1"` selects `Config::V1`, whose content is the table without the
tag). -/
def decodeConfig (t : List (String × Toml)) : Except DeError Config :=
  match lookupKey t "version" with
  | some (.str "v1") =>
    (decodeV1 (t.filter (fun kv => !(kv.1 == "version")))).map Config.v1
  | some (.str other) => .error (.unknownVariant other)
  | some _ => .error (.invalidType "version")
  | none => .error (.missingField "version")

/-- Decode `legacy::AstarteLibrary`. -/
def decodeLegacyLibrary (k : String) : Toml → Except DeError LegacyAstarteLibrary
  | .str "astarte-device-sdk" => .ok .astarteDeviceSdk
  | .str "astarte-message-hub" => .ok .astarteMessageHub
  | .str other => .error (.unknownVariant other)
  | _ => .error (.invalidType k)

/-- Decode `legacy::DeviceSdkArgs`. -/
def decodeDeviceSdkArgs (t : List (String × Toml)) : Except DeError DeviceSdkArgs := do
  let realm ← optField t "realm" (asStr "realm")
  let device_id ← optField t "device_id" (asStr "device_id")
  let credentials_secret ← optField t "credentials_secret" (asStr "credentials_secret")
  let pairing_token ← optField t "pairing_token" (asStr "pairing_token")
  let pairing_url ← optField t "pairing_url" (asStr "pairing_url")
  let ignore_ssl ← optField t "ignore_ssl" (asBool "ignore_ssl")
  pure { realm := realm, device_id := device_id,
         credentials_secret := credentials_secret, pairing_token := pairing_token,
         pairing_url := pairing_url, ignore_ssl := ignore_ssl }

/-- Decode `legacy::MsgHubArgs`. -/
def decodeMsgHubArgs (t : List (String × Toml)) : Except DeError MsgHubArgs := do
  let endpoint ← optField t "endpoint" (asStr "endpoint")
  pure { endpoint := endpoint }

/-- Decode `v1::Listener` (externally tagged: exactly one of the variant
keys). -/
def decodeListener (t : List (String × Toml)) : Except DeError Listener :=
  match lookupKey t "unix", lookupKey t "socket" with
  | some v, none => (asStr "unix" v).map Listener.unix
  | none, some v => (asStr "socket" v).map Listener.socket
  | _, _ => .error (.invalid "expected exactly one of unix or socket")

/-- Decode `v1::Service`; `dl` is the platform-dependent
`Listener::default()`. -/
def decodeService (dl : Listener) (t : List (String × Toml)) : Except DeError Service := do
  let enabled ← fieldD t "enabled" (asBool "enabled") false
  let listener ←
    match lookupKey t "listener" with
    | none => Except.ok dl
    | some v => (asTable "listener" v).bind decodeListener
  pure { enabled := enabled, listener := listener }

/-- Decode `v1::Reboot`. -/
def decodeReboot (k : String) : Toml → Except DeError Reboot
  | .str "default" => .ok .default
  | .str "external" => .ok .external
  | .str other => .error (.unknownVariant other)
  | _ => .error (.invalidType k)

/-- Decode `v1::OtaConfig`. -/
def decodeOta (t : List (String × Toml)) : Except DeError OtaConfig := do
  let reboot ← fieldD t "reboot" (decodeReboot "reboot") .default
  let streaming ← fieldD t "streaming" (asBool "streaming") false
  pure { reboot := reboot, streaming := streaming }

/-- Decode a `v1::TelemetryInterface` entry. -/
def decodeTelemetry (t : List (String × Toml)) : Except DeError TelemetryInterface := do
  let interface_name ← reqField t "interface_name" (asStr "interface_name")
  let enabled ← fieldD t "enabled" (asBool "enabled") false
  let period ← fieldD t "period" (asNat "period") 60
  pure { interface_name := interface_name, enabled := enabled, period := period }

/-- Decode the `telemetry_config` array. -/
def decodeTelemetryList : List Toml → Except DeError (List TelemetryInterface)
  | [] => .ok []
  | x :: xs => do
    let xt ← asTable "telemetry_config" x
    let ti ← decodeTelemetry xt
    let rest ← decodeTelemetryList xs
    pure (ti :: rest)

/-- Decode `legacy::Config`: every field optional, keys outside the schema
ignored (no `deny_unknown_fields`). -/
def decodeLegacy (dl : Listener) (t : List (String × Toml)) : Except DeError LegacyConfig := do
  let astarte_library ← optField t "astarte_library" (decodeLegacyLibrary "astarte_library")
  let astarte_device_sdk ← optField t "astarte_device_sdk"
    (fun v => (asTable "astarte_device_sdk" v).bind decodeDeviceSdkArgs)
  let astarte_message_hub ← optField t "astarte_message_hub"
    (fun v => (asTable "astarte_message_hub" v).bind decodeMsgHubArgs)
  let containers ← optField t "containers"
    (fun v => (asTable "containers" v).bind decodeContainers)
  let service ← optField t "service"
    (fun v => (asTable "service" v).bind (decodeService dl))
  let ota ← optField t "ota" (fun v => (asTable "ota" v).bind decodeOta)
  let interfaces_directory ← optField t "interfaces_directory" (asStr "interfaces_directory")
  let store_directory ← optField t "store_directory" (asStr "store_directory")
  let download_directory ← optField t "download_directory" (asStr "download_directory")
  let telemetry_config ← optField t "telemetry_config"
    (fun v =>
      match v with
      | .arr xs => decodeTelemetryList xs
      | _ => Except.error (.invalidType "telemetry_config"))
  pure { astarte_library := astarte_library, astarte_device_sdk := astarte_device_sdk,
         astarte_message_hub := astarte_message_hub, containers := containers,
         service := service, ota := ota, interfaces_directory := interfaces_directory,
         store_directory := store_directory, download_directory := download_directory,
         telemetry_config := telemetry_config }

/-- The dispatch of `Compatible::deserialize` on a parsed table: if the
`version` key is present decode the tagged union, else decode the legacy
flat schema. -/
def decodeCompatible (dl : Listener) (t : List (String × Toml)) :
    Except DeError Compatible :=
  if containsKey t "version" then (decodeConfig t).map Compatible.versioned
  else (decodeLegacy dl t).map Compatible.backwards

/-- Outcome of `Compatible::deserialize`: a panic (from `.unwrap()`), or a
returned `Result`. -/
inductive DeserializeOutcome where
  | panicked
  | returned (r : Except DeError Compatible)

/-- `Compatible::deserialize` (config lib.rs lines 57-72) over an abstract
TOML parser: `content.parse().unwrap()` panics when the content is not
syntactically valid TOML; otherwise the parsed table is decoded and the
`Result` is returned. -/
def Compatible.deserialize (dl : Listener)
    (parse : String → Option (List (String × Toml))) (content : String) :
    DeserializeOutcome :=
  match parse content with
  | none => .panicked
  | some t => .returned (decodeCompatible dl t)

end Cfg

/-- C9: for every `DeploymentStatus` value of `models.rs`, serializing via
`From<DeploymentStatus> for i32` and deserializing via `FromSql` is claimed
to yield the original value. The code refutes this: `Stopped` serializes to
`0` which deserializes to `Started`, and `Started` serializes to `1` which
`FromSql` rejects; no value round-trips. -/
theorem C9_deployment_status_roundtrip_fails :
    StoreModels.DeploymentStatus.fromSql
        (StoreModels.DeploymentStatus.toI32 .stopped) = .ok .started ∧
    StoreModels.DeploymentStatus.fromSql
        (StoreModels.DeploymentStatus.toI32 .started)
      = .error ("unrecognized deployment status " ++ toString (1 : Int)) ∧
    ∀ s : StoreModels.DeploymentStatus,
      StoreModels.DeploymentStatus.fromSql (StoreModels.DeploymentStatus.toI32 s) ≠ .ok s := by
  refine ⟨rfl, rfl, ?_⟩
  intro s
  cases s <;>
    simp [StoreModels.DeploymentStatus.toI32, StoreModels.DeploymentStatus.fromSql]

namespace Docker

/-- Helper: a successful `inspect_with` whose reply carries an id stores
that id. -/
theorem inspect_with_carries_id (c : ContainerId) (client : InspectClient)
    (name : String) (resp : ContainerInspectResponse) (nid : String)
    (hok : (c.inspect_with client name).2 = .ok (some resp))
    (hid : resp.id = some nid) :
    (c.inspect_with client name).1.id = some nid := by
  unfold ContainerId.inspect_with at hok ⊢
  cases hcl : client name with
  | ok r =>
    simp only [hcl] at hok ⊢
    cases hri : r.id with
    | some x =>
      simp only [hri] at hok ⊢
      simp only [Except.ok.injEq, Option.some.injEq] at hok
      subst hok
      rw [hri] at hid
      simp [ContainerId.update, hid]
    | none =>
      simp only [hri] at hok ⊢
      simp only [Except.ok.injEq, Option.some.injEq] at hok
      subst hok
      rw [hri] at hid
      exact absurd hid (by simp)
  | error e =>
    cases e with
    | dockerResponseServerError st msg =>
      simp only [hcl] at hok
      by_cases h404 : st = 404 <;> simp [h404] at hok
    | other d =>
      simp only [hcl] at hok
      simp at hok

end Docker

/-- C3: an HTTP 404 from the engine on inspect, remove, start or stop makes
the operation return `Ok(None)`, and an HTTP 304 on stop returns
`Ok(Some(()))` (already stopped, idempotent). -/
theorem C3_engine_404_304_normalized :
    (∀ (c : Docker.ContainerId) (client : Docker.UnitClient) (m : String),
      client c.container = .error (.dockerResponseServerError 404 m) →
      c.remove client = .ok none) ∧
    (∀ (c : Docker.ContainerId) (client : Docker.UnitClient) (m : String),
      client c.container = .error (.dockerResponseServerError 404 m) →
      c.start client = .ok none) ∧
    (∀ (c : Docker.ContainerId) (client : Docker.UnitClient) (m : String),
      client c.container = .error (.dockerResponseServerError 404 m) →
      c.stop client = .ok none) ∧
    (∀ (c : Docker.ContainerId) (client : Docker.InspectClient) (m : String → String),
      (∀ name, client name = .error (.dockerResponseServerError 404 (m name))) →
      (c.inspect client).2 = .ok none) ∧
    (∀ (c : Docker.ContainerId) (client : Docker.UnitClient) (m : String),
      client c.container = .error (.dockerResponseServerError 304 m) →
      c.stop client = .ok (some ())) := by
  refine ⟨?_, ?_, ?_, ?_, ?_⟩
  · intro c client m h
    simp [Docker.ContainerId.remove, h]
  · intro c client m h
    simp [Docker.ContainerId.start, h]
  · intro c client m h
    simp [Docker.ContainerId.stop, h]
  · intro c client m h
    unfold Docker.ContainerId.inspect
    cases hid : c.id with
    | none => simp [Docker.ContainerId.inspect_with, h]
    | some i => simp [Docker.ContainerId.inspect_with, h]
  · intro c client m h
    simp [Docker.ContainerId.stop, h]

/-- Witness for C3 at a concrete container and concrete engine
responses. -/
theorem C3_engine_404_304_normalized_witness :
    Docker.ContainerId.stop ⟨none, "u"⟩
        (fun _ => .error (.dockerResponseServerError 304 "already stopped")) = .ok (some ()) ∧
    Docker.ContainerId.remove ⟨some "lid", "u"⟩
        (fun _ => .error (.dockerResponseServerError 404 "gone")) = .ok none :=
  ⟨C3_engine_404_304_normalized.2.2.2.2 ⟨none, "u"⟩ _ "already stopped" rfl,
   C3_engine_404_304_normalized.1 ⟨some "lid", "u"⟩ _ "gone" rfl⟩

/-- C4: the claim says a non-2xx, non-normalized engine response on `stop`
yields an error of the `Stop` kind. The code disagrees: `ContainerId::stop`
wraps the error in `ContainerError::Start` (container.rs line 267), leaving
the documented `Stop` variant unused, while inspect/remove/start do use
their own kinds. Evaluation at the failing input (HTTP 500 on stop). -/
theorem C4_stop_error_carries_start_kind :
    Docker.ContainerId.stop ⟨none, "u"⟩
        (fun _ => .error (.dockerResponseServerError 500 "server error"))
      = .error (.start (.dockerResponseServerError 500 "server error")) ∧
    Docker.ContainerId.stop ⟨none, "u"⟩
        (fun _ => .error (.dockerResponseServerError 500 "server error"))
      ≠ .error (.stop (.dockerResponseServerError 500 "server error")) := by
  exact ⟨rfl, by simp [Docker.ContainerId.stop]⟩

/-- C8: inspect queries the engine by the stored local id first; a 404 on
that query makes it retry by the stringified UUID name; and every
successful inspect query whose reply carries an id replaces the stored
local id with it. -/
theorem C8_inspect_by_id_then_name :
    (∀ (c : Docker.ContainerId) (client : Docker.InspectClient) (i : String)
        (resp : Docker.ContainerInspectResponse),
      c.id = some i → client i = .ok resp →
      c.inspect client
        = ((match resp.id with
            | some nid => { c with id := some nid }
            | none => c), .ok (some resp))) ∧
    (∀ (c : Docker.ContainerId) (client : Docker.InspectClient) (i : String) (m : String),
      c.id = some i → client i = .error (.dockerResponseServerError 404 m) →
      c.inspect client = c.inspect_with client c.name) ∧
    (∀ (c : Docker.ContainerId) (client : Docker.InspectClient) (name : String)
        (resp : Docker.ContainerInspectResponse) (nid : String),
      client name = .ok resp → resp.id = some nid →
      (c.inspect_with client name).1.id = some nid) ∧
    (∀ (c : Docker.ContainerId) (client : Docker.InspectClient)
        (resp : Docker.ContainerInspectResponse) (nid : String),
      (c.inspect client).2 = .ok (some resp) → resp.id = some nid →
      (c.inspect client).1.id = some nid) := by
  refine ⟨?_, ?_, ?_, ?_⟩
  · intro c client i resp hid hcl
    have hw : c.inspect_with client i = (match resp.id with
        | some nid => { c with id := some nid }
        | none => c, .ok (some resp)) := by
      unfold Docker.ContainerId.inspect_with
      simp only [hcl]
      cases hri : resp.id <;> simp [Docker.ContainerId.update, hri]
    unfold Docker.ContainerId.inspect
    simp only [hid, hw]
  · intro c client i m hid hcl
    have hw : c.inspect_with client i = (c, .ok none) := by
      unfold Docker.ContainerId.inspect_with
      simp [hcl]
    unfold Docker.ContainerId.inspect
    simp only [hid, hw]
  · intro c client name resp nid hcl hr
    apply Docker.inspect_with_carries_id c client name resp nid _ hr
    unfold Docker.ContainerId.inspect_with
    simp [hcl]
  · intro c client resp nid hres hr
    unfold Docker.ContainerId.inspect at hres ⊢
    cases hid : c.id with
    | none =>
      simp only [hid] at hres ⊢
      exact Docker.inspect_with_carries_id c client c.name resp nid hres hr
    | some i =>
      simp only [hid] at hres ⊢
      cases hfst : c.inspect_with client i with
      | mk c1 r1 =>
        cases r1 with
        | ok o =>
          cases o with
          | some rr =>
            simp only [hfst] at hres ⊢
            simp only [Except.ok.injEq, Option.some.injEq] at hres
            subst hres
            have h2 : (c.inspect_with client i).2 = .ok (some rr) := by rw [hfst]
            have h3 := Docker.inspect_with_carries_id c client i rr nid h2 hr
            rw [hfst] at h3
            exact h3
          | none =>
            simp only [hfst] at hres ⊢
            exact Docker.inspect_with_carries_id c1 client c1.name resp nid hres hr
        | error e =>
          simp only [hfst] at hres
          simp at hres

namespace Store

theorem mem_insertOrIgnore_of_mem {α κ : Type} [BEq κ] (key : α → κ) {l : List α} {y : α}
    (x : α) (h : y ∈ l) : y ∈ insertOrIgnore key l x := by
  unfold insertOrIgnore
  split
  · exact h
  · exact List.mem_append_left _ h

theorem mem_insertOrIgnore_self {α κ : Type} [BEq κ] [LawfulBEq κ] (key : α → κ)
    (hinj : ∀ a b, key a = key b → a = b) (l : List α) (x : α) :
    x ∈ insertOrIgnore key l x := by
  unfold insertOrIgnore
  split
  · next h =>
    obtain ⟨y, hy, hk⟩ := List.any_eq_true.mp h
    have hxy : y = x := hinj _ _ (by simpa using hk)
    exact hxy ▸ hy
  · exact List.mem_append_right _ (List.mem_singleton.mpr rfl)

theorem insertOrIgnore_of_not_found {α κ : Type} [BEq κ] (key : α → κ) {l : List α} {x : α}
    (h : l.any (fun r => key r == key x) = false) :
    insertOrIgnore key l x = l ++ [x] := by
  unfold insertOrIgnore
  simp [h]

theorem any_key_insertOrIgnore {α κ : Type} [BEq κ] [LawfulBEq κ] (key : α → κ)
    (l : List α) (x : α) :
    (insertOrIgnore key l x).any (fun r => key r == key x) = true := by
  unfold insertOrIgnore
  split
  · next h => exact h
  · simp

theorem any_insertOrIgnore_of_any {α κ : Type} [BEq κ] (key : α → κ) (l : List α) (x : α)
    (p : α → Bool) (h : l.any p = true) : (insertOrIgnore key l x).any p = true := by
  unfold insertOrIgnore
  split
  · exact h
  · simp [List.any_append, h]

theorem any_insertOrIgnore_eq_false {α κ : Type} [BEq κ] (key : α → κ) (l : List α) (x : α)
    (p : α → Bool) (hl : l.any p = false) (hx : p x = false) :
    (insertOrIgnore key l x).any p = false := by
  unfold insertOrIgnore
  split
  · exact hl
  · simp [List.any_append, hl, hx]

theorem create_image_images (s : StoreState) (req : CreateImage) :
    (create_image s req).images = insertOrIgnore Image.id s.images (Image.fromCreate req) := rfl

theorem create_image_containers (s : StoreState) (req : CreateImage) :
    (create_image s req).containers
      = s.containers.map fun c =>
          if (promotedIds s req.id).contains c.id then { c with image_id := some req.id }
          else c := rfl

theorem create_image_cmi (s : StoreState) (req : CreateImage) :
    (create_image s req).container_missing_images
      = s.container_missing_images.filter (fun r => !(r.image_id == req.id)) := rfl

theorem missingImagesFor_create_image (s : StoreState) (req : CreateImage) (cid : Uuid) :
    missingImagesFor (create_image s req) cid
      = (missingImagesFor s cid).filter (fun r => !(r.image_id == req.id)) := by
  unfold missingImagesFor
  rw [create_image_cmi, List.filter_filter, List.filter_filter]
  congr 1
  funext r
  rw [Bool.and_comm]

theorem netStep_images (cid : Uuid) (acc : StoreState) (nid : Uuid) :
    (netStep cid acc nid).images = acc.images := by
  unfold netStep
  split <;> rfl

theorem netStep_containers (cid : Uuid) (acc : StoreState) (nid : Uuid) :
    (netStep cid acc nid).containers = acc.containers := by
  unfold netStep
  split <;> rfl

theorem netStep_cmi (cid : Uuid) (acc : StoreState) (nid : Uuid) :
    (netStep cid acc nid).container_missing_images = acc.container_missing_images := by
  unfold netStep
  split <;> rfl

theorem volStep_images (cid : Uuid) (acc : StoreState) (vid : Uuid) :
    (volStep cid acc vid).images = acc.images := by
  unfold volStep
  split <;> rfl

theorem volStep_containers (cid : Uuid) (acc : StoreState) (vid : Uuid) :
    (volStep cid acc vid).containers = acc.containers := by
  unfold volStep
  split <;> rfl

theorem volStep_cmi (cid : Uuid) (acc : StoreState) (vid : Uuid) :
    (volStep cid acc vid).container_missing_images = acc.container_missing_images := by
  unfold volStep
  split <;> rfl

theorem foldl_netStep_images (cid : Uuid) (ids : List Uuid) (acc : StoreState) :
    (ids.foldl (netStep cid) acc).images = acc.images := by
  induction ids generalizing acc with
  | nil => rfl
  | cons a as ih => rw [List.foldl_cons, ih, netStep_images]

theorem foldl_netStep_containers (cid : Uuid) (ids : List Uuid) (acc : StoreState) :
    (ids.foldl (netStep cid) acc).containers = acc.containers := by
  induction ids generalizing acc with
  | nil => rfl
  | cons a as ih => rw [List.foldl_cons, ih, netStep_containers]

theorem foldl_netStep_cmi (cid : Uuid) (ids : List Uuid) (acc : StoreState) :
    (ids.foldl (netStep cid) acc).container_missing_images = acc.container_missing_images := by
  induction ids generalizing acc with
  | nil => rfl
  | cons a as ih => rw [List.foldl_cons, ih, netStep_cmi]

theorem foldl_volStep_images (cid : Uuid) (ids : List Uuid) (acc : StoreState) :
    (ids.foldl (volStep cid) acc).images = acc.images := by
  induction ids generalizing acc with
  | nil => rfl
  | cons a as ih => rw [List.foldl_cons, ih, volStep_images]

theorem foldl_volStep_containers (cid : Uuid) (ids : List Uuid) (acc : StoreState) :
    (ids.foldl (volStep cid) acc).containers = acc.containers := by
  induction ids generalizing acc with
  | nil => rfl
  | cons a as ih => rw [List.foldl_cons, ih, volStep_containers]

theorem foldl_volStep_cmi (cid : Uuid) (ids : List Uuid) (acc : StoreState) :
    (ids.foldl (volStep cid) acc).container_missing_images = acc.container_missing_images := by
  induction ids generalizing acc with
  | nil => rfl
  | cons a as ih => rw [List.foldl_cons, ih, volStep_cmi]

theorem create_container_images (s : StoreState) (v : CreateContainer)
    (pb : List (String × List Binding)) :
    (create_container s v pb).images = s.images := by
  cases himg : s.imageExists v.image_id <;>
    simp [create_container, himg, foldl_volStep_images, foldl_netStep_images]

theorem create_container_containers (s : StoreState) (v : CreateContainer)
    (pb : List (String × List Binding)) :
    (create_container s v pb).containers
      = insertOrIgnore Container.id s.containers
          (if s.imageExists v.image_id then Container.fromCreate v
           else { Container.fromCreate v with image_id := none }) := by
  cases himg : s.imageExists v.image_id <;>
    simp [create_container, himg, foldl_volStep_containers, foldl_netStep_containers]

theorem create_container_cmi (s : StoreState) (v : CreateContainer)
    (pb : List (String × List Binding)) :
    (create_container s v pb).container_missing_images
      = if s.imageExists v.image_id then s.container_missing_images
        else insertOrIgnore (fun r => (r.container_id, r.image_id))
          s.container_missing_images { container_id := v.id, image_id := v.image_id } := by
  cases himg : s.imageExists v.image_id <;>
    simp [create_container, himg, foldl_volStep_cmi, foldl_netStep_cmi]

theorem mem_promotedIds (s : StoreState) (iid cid : Uuid) :
    cid ∈ promotedIds s iid
      ↔ ∃ r ∈ s.container_missing_images, r.image_id = iid ∧ r.container_id = cid := by
  unfold promotedIds
  constructor
  · intro h
    obtain ⟨r, hrf, hrc⟩ := List.mem_map.mp h
    obtain ⟨hrm, hre⟩ := List.mem_filter.mp hrf
    exact ⟨r, hrm, by simpa using hre, hrc⟩
  · intro ⟨r, hrm, hri, hrc⟩
    apply List.mem_map.mpr
    refine ⟨r, List.mem_filter.mpr ⟨hrm, by simp [hri]⟩, hrc⟩

theorem mem_missingImagesFor (s : StoreState) (cid : Uuid) (r : ContainerMissingImage) :
    r ∈ missingImagesFor s cid ↔ r ∈ s.container_missing_images ∧ r.container_id = cid := by
  unfold missingImagesFor
  rw [List.mem_filter]
  simp

/-- Invariant preservation and postcondition: `create_image`. -/
theorem create_image_inv (s : StoreState) (req : CreateImage) (h : ImageRefInv s) :
    ImageRefInv (create_image s req) := by
  obtain ⟨hA, hB⟩ := h
  constructor
  · intro c1 hc1
    rw [create_image_containers] at hc1
    obtain ⟨c, hc, rfl⟩ := List.mem_map.mp hc1
    have hcA := hA c hc
    unfold containerImageOk at hcA
    unfold containerImageOk
    by_cases hmem : ((promotedIds s req.id).contains c.id) = true
    · have hex := (mem_promotedIds s req.id c.id).mp (List.mem_of_elem_eq_true hmem)
      obtain ⟨r0, hr0m, hr0i, hr0c⟩ := hex
      have hr0mf : r0 ∈ missingImagesFor s c.id :=
        (mem_missingImagesFor s c.id r0).mpr ⟨hr0m, hr0c⟩
      cases hci : c.image_id with
      | some i =>
        rw [hci] at hcA
        rw [hcA.2] at hr0mf
        exact absurd hr0mf (List.not_mem_nil _)
      | none =>
        simp only [hmem, if_true]
        refine ⟨?_, ?_⟩
        · exact any_key_insertOrIgnore Image.id s.images (Image.fromCreate req)
        · rw [show ({ c with image_id := some req.id } : Container).id = c.id from rfl]
          rw [missingImagesFor_create_image]
          rw [hci] at hcA
          obtain ⟨r, hr⟩ := List.length_eq_one.mp hcA
          have hrr : r0 = r := by
            rw [hr] at hr0mf
            simpa using hr0mf
          subst hrr
          rw [hr]
          simp [hr0i]
    · have hmemf : ((promotedIds s req.id).contains c.id) = false :=
        Bool.eq_false_iff.mpr hmem
      simp only [hmemf, Bool.false_eq_true, if_false]
      cases hci : c.image_id with
      | some i =>
        rw [hci] at hcA
        simp only [hci]
        refine ⟨?_, ?_⟩
        · exact any_insertOrIgnore_of_any Image.id s.images (Image.fromCreate req) _ hcA.1
        · rw [missingImagesFor_create_image, hcA.2]
          rfl
      | none =>
        rw [hci] at hcA
        simp only [hci]
        obtain ⟨r, hr⟩ := List.length_eq_one.mp hcA
        have hrim : r ∈ missingImagesFor s c.id := by rw [hr]; simp
        obtain ⟨hrm, hrc⟩ := (mem_missingImagesFor s c.id r).mp hrim
        have hri : (r.image_id == req.id) = false := by
          cases hx : r.image_id == req.id
          · rfl
          · exfalso
            have hcmem : c.id ∈ promotedIds s req.id :=
              (mem_promotedIds s req.id c.id).mpr ⟨r, hrm, by simpa using hx, hrc⟩
            have h2 : ((promotedIds s req.id).contains c.id) = true :=
              List.elem_eq_true_of_mem hcmem
            rw [h2] at hmemf
            exact absurd hmemf (by decide)
        rw [missingImagesFor_create_image, hr]
        simp [List.filter, hri]
  · intro r hrm
    rw [create_image_cmi] at hrm
    obtain ⟨hrm0, hrne⟩ := List.mem_filter.mp hrm
    obtain ⟨hBi, hBc⟩ := hB r hrm0
    have hrne2 : r.image_id ≠ req.id := by
      simpa using hrne
    refine ⟨?_, ?_⟩
    · apply any_insertOrIgnore_eq_false Image.id s.images (Image.fromCreate req) _ hBi
      rw [beq_eq_false_iff_ne]
      exact fun hh => hrne2 hh.symm
    · rw [create_image_containers, List.any_map]
      have hfun : ((fun c => c.id == r.container_id) ∘ (fun (c : Container) =>
          if (promotedIds s req.id).contains c.id then { c with image_id := some req.id }
          else c)) = fun (c : Container) => c.id == r.container_id := by
        funext c
        by_cases hx : ((promotedIds s req.id).contains c.id) = true
        · have hm := List.mem_of_elem_eq_true hx
          simp [Function.comp, hm]
        · have hnm : c.id ∉ promotedIds s req.id :=
            fun hm => hx (List.elem_eq_true_of_mem hm)
          simp [Function.comp, hnm]
      rw [hfun]
      exact hBc

/-- Invariant preservation: `create_container` for a fresh container id. -/
theorem create_container_inv (s : StoreState) (v : CreateContainer)
    (pb : List (String × List Binding)) (h : ImageRefInv s)
    (hfr : s.containers.any (fun c => c.id == v.id) = false) :
    ImageRefInv (create_container s v pb) := by
  obtain ⟨hA, hB⟩ := h
  have hfr2 : ∀ c ∈ s.containers, (c.id == v.id) = false := by
    intro c hc
    exact Bool.eq_false_iff.mpr (List.any_eq_false.mp hfr c hc)
  have hnomiss : s.container_missing_images.filter
      (fun r => r.container_id == v.id) = [] := by
    apply List.filter_eq_nil_iff.mpr
    intro r hrm
    intro hx
    have hre : r.container_id = v.id := by simpa using hx
    have hBc := (hB r hrm).2
    rw [hre] at hBc
    rw [hBc] at hfr
    exact absurd hfr (by decide)
  have hiex : ∀ i, (create_container s v pb).imageExists i = s.imageExists i := by
    intro i
    unfold StoreState.imageExists
    rw [create_container_images]
  cases himg : s.imageExists v.image_id with
  | true =>
    have hconts : (create_container s v pb).containers
        = s.containers ++ [Container.fromCreate v] := by
      rw [create_container_containers, himg, if_pos rfl]
      exact insertOrIgnore_of_not_found Container.id hfr
    have hcmi : (create_container s v pb).container_missing_images
        = s.container_missing_images := by
      rw [create_container_cmi, himg, if_pos rfl]
    have hmif : ∀ cid, missingImagesFor (create_container s v pb) cid
        = missingImagesFor s cid := by
      intro cid
      unfold missingImagesFor
      rw [hcmi]
    constructor
    · intro c1 hc1
      rw [hconts] at hc1
      rcases List.mem_append.mp hc1 with hc | hc
      · have hcA := hA c1 hc
        unfold containerImageOk at hcA
        unfold containerImageOk
        cases hci : c1.image_id with
        | some i =>
          rw [hci] at hcA
          simp only [hci]
          exact ⟨by rw [hiex]; exact hcA.1, by rw [hmif]; exact hcA.2⟩
        | none =>
          rw [hci] at hcA
          simp only [hci]
          rw [hmif]
          exact hcA
      · have hc1e : c1 = Container.fromCreate v := by simpa using hc
        subst hc1e
        show (create_container s v pb).imageExists v.image_id = true ∧
          missingImagesFor (create_container s v pb) (Container.fromCreate v).id = []
        refine ⟨?_, ?_⟩
        · rw [hiex]
          exact himg
        · rw [hmif]
          exact hnomiss
    · intro r hrm
      rw [hcmi] at hrm
      obtain ⟨hBi, hBc⟩ := hB r hrm
      refine ⟨by rw [hiex]; exact hBi, ?_⟩
      rw [hconts, List.any_append, hBc]
      rfl
  | false =>
    have hrow_not_found : s.container_missing_images.any
        (fun r => (r.container_id, r.image_id)
          == (({ container_id := v.id, image_id := v.image_id } :
                ContainerMissingImage).container_id,
              ({ container_id := v.id, image_id := v.image_id } :
                ContainerMissingImage).image_id)) = false := by
      cases hx : s.container_missing_images.any
          (fun r => (r.container_id, r.image_id)
            == (({ container_id := v.id, image_id := v.image_id } :
                  ContainerMissingImage).container_id,
                ({ container_id := v.id, image_id := v.image_id } :
                  ContainerMissingImage).image_id)) with
      | false => rfl
      | true =>
        exfalso
        obtain ⟨r, hrm, hkey⟩ := List.any_eq_true.mp hx
        have hk2 : r.container_id = v.id := by
          have := hkey
          simp at this
          exact this.1
        have hBc := (hB r hrm).2
        rw [hk2] at hBc
        rw [hBc] at hfr
        exact absurd hfr (by decide)
    have hcmi : (create_container s v pb).container_missing_images
        = s.container_missing_images
          ++ [{ container_id := v.id, image_id := v.image_id }] := by
      rw [create_container_cmi, himg]
      simp only [Bool.false_eq_true, if_false]
      exact insertOrIgnore_of_not_found
        (fun (r : ContainerMissingImage) => (r.container_id, r.image_id)) hrow_not_found
    have hconts : (create_container s v pb).containers
        = s.containers ++ [{ Container.fromCreate v with image_id := none }] := by
      rw [create_container_containers, himg]
      simp only [Bool.false_eq_true, if_false]
      exact insertOrIgnore_of_not_found Container.id hfr
    have hmif : ∀ cid, (cid == v.id) = false →
        missingImagesFor (create_container s v pb) cid = missingImagesFor s cid := by
      intro cid hne
      unfold missingImagesFor
      rw [hcmi, List.filter_append]
      have hsingle : ([({ container_id := v.id, image_id := v.image_id } :
          ContainerMissingImage)].filter (fun r => r.container_id == cid)) = [] := by
        have : ((v.id : Uuid) == cid) = false := by
          rw [beq_eq_false_iff_ne]
          intro hh
          rw [beq_eq_false_iff_ne] at hne
          exact hne hh.symm
        simp [this]
      rw [hsingle, List.append_nil]
    have hmifv : missingImagesFor (create_container s v pb) v.id
        = [{ container_id := v.id, image_id := v.image_id }] := by
      unfold missingImagesFor
      rw [hcmi, List.filter_append]
      rw [show s.container_missing_images.filter
          (fun r => r.container_id == v.id) = [] from hnomiss]
      simp
    constructor
    · intro c1 hc1
      rw [hconts] at hc1
      rcases List.mem_append.mp hc1 with hc | hc
      · have hcA := hA c1 hc
        have hcne := hfr2 c1 hc
        unfold containerImageOk at hcA
        unfold containerImageOk
        cases hci : c1.image_id with
        | some i =>
          rw [hci] at hcA
          simp only [hci]
          exact ⟨by rw [hiex]; exact hcA.1, by rw [hmif c1.id hcne]; exact hcA.2⟩
        | none =>
          rw [hci] at hcA
          simp only [hci]
          rw [hmif c1.id hcne]
          exact hcA
      · have hc1e : c1 = { Container.fromCreate v with image_id := none } := by
          simpa using hc
        subst hc1e
        show (missingImagesFor (create_container s v pb)
          ({ Container.fromCreate v with image_id := none } : Container).id).length = 1
        rw [show ({ Container.fromCreate v with image_id := none } : Container).id = v.id
          from rfl]
        rw [hmifv]
        rfl
    · intro r hrm
      rw [hcmi] at hrm
      rcases List.mem_append.mp hrm with hr | hr
      · obtain ⟨hBi, hBc⟩ := hB r hr
        refine ⟨by rw [hiex]; exact hBi, ?_⟩
        rw [hconts, List.any_append, hBc]
        rfl
      · have hre : r = { container_id := v.id, image_id := v.image_id } := by
          simpa using hr
        subst hre
        refine ⟨by rw [hiex]; exact himg, ?_⟩
        rw [hconts, List.any_append]
        simp [Container.fromCreate]

/-- Invariant preservation: `create_network` does not touch the image,
container or missing-image tables. -/
theorem create_network_inv (s : StoreState) (req : CreateNetwork)
    (opts : List NetworkDriverOpts) (h : ImageRefInv s) :
    ImageRefInv (create_network s req opts) := h

/-- Invariant preservation: `create_volume` does not touch the image,
container or missing-image tables. -/
theorem create_volume_inv (s : StoreState) (vol : Volume) (h : ImageRefInv s) :
    ImageRefInv (create_volume s vol) := h

/-- Postcondition of `create_container` for a fresh container whose image
is absent: the stored container row has a null `image_id` and the missing
row is recorded. -/
theorem create_container_post (s : StoreState) (v : CreateContainer)
    (pb : List (String × List Binding))
    (hfr : s.containers.any (fun c => c.id == v.id) = false)
    (himg : s.imageExists v.image_id = false) :
    (∃ c ∈ (create_container s v pb).containers, c.id = v.id ∧ c.image_id = none) ∧
    ({ container_id := v.id, image_id := v.image_id } : ContainerMissingImage)
        ∈ (create_container s v pb).container_missing_images := by
  constructor
  · rw [create_container_containers, himg]
    simp only [Bool.false_eq_true, if_false]
    rw [insertOrIgnore_of_not_found Container.id hfr]
    exact ⟨{ Container.fromCreate v with image_id := none },
      List.mem_append_right _ (List.mem_singleton.mpr rfl), rfl, rfl⟩
  · rw [create_container_cmi, himg]
    simp only [Bool.false_eq_true, if_false]
    apply mem_insertOrIgnore_self
    intro a b hab
    cases a
    cases b
    simpa using hab

/-- Postcondition of `create_image`: every container recorded as missing
this image gets its `image_id` set and the missing rows for this image are
deleted. -/
theorem create_image_post (s : StoreState) (req : CreateImage) :
    (∀ c ∈ s.containers,
      ({ container_id := c.id, image_id := req.id } : ContainerMissingImage)
          ∈ s.container_missing_images →
      ∃ c2 ∈ (create_image s req).containers, c2.id = c.id ∧ c2.image_id = some req.id) ∧
    (create_image s req).container_missing_images.filter
        (fun r => r.image_id == req.id) = [] := by
  constructor
  · intro c hc hrow
    have hcmem : c.id ∈ promotedIds s req.id :=
      (mem_promotedIds s req.id c.id).mpr ⟨_, hrow, rfl, rfl⟩
    have hcond : ((promotedIds s req.id).contains c.id) = true :=
      List.elem_eq_true_of_mem hcmem
    rw [create_image_containers]
    have hmem := List.mem_map_of_mem
      (fun c => if (promotedIds s req.id).contains c.id then
        { c with image_id := some req.id } else c) hc
    have hfc : (fun c => if (promotedIds s req.id).contains c.id then
        { c with image_id := some req.id } else c) c
        = { c with image_id := some req.id } := by
      simp [List.mem_of_elem_eq_true hcond]
    rw [hfc] at hmem
    exact ⟨_, hmem, rfl, rfl⟩
  · rw [create_image_cmi, List.filter_filter]
    apply List.filter_eq_nil_iff.mpr
    intro r _
    cases hx : r.image_id == req.id <;> simp [hx]

end Store

/-- C1 counterexample: the claim quantifies over every `create_container`
request whose image UUID is absent. Re-sending an existing container UUID
with a new, absent image UUID (insert-or-ignore keeps the old row) leaves
the container row with its old non-null `image_id` while also recording a
missing row — both halves of the claimed disjunction fail: the row is not
null, and the state has both a valid image reference and a missing row. -/
theorem C1_counterexample_duplicate_container :
    Store.StoreState.imageExists c1Step2 2 = false ∧
    (∃ c ∈ c1Step3.containers, c.id = 10 ∧ c.image_id = some 1) ∧
    ({ container_id := 10, image_id := 2 } : Store.ContainerMissingImage)
        ∈ c1Step3.container_missing_images ∧
    ¬ (∃ c ∈ c1Step3.containers, c.id = 10 ∧ c.image_id = none) := by
  decide

/-- C1 (amended): restricted to `create_container` requests whose container
UUID is not yet in the containers table, the claimed behaviour holds: the
transaction leaves the container row with a null `image_id` and records the
missing row; a later `create_image` with that UUID sets every such
container's `image_id` and deletes the missing rows; and every store
transaction preserves the invariant that a container row has either a
non-null `image_id` of an existing image (and no missing row) or a null
`image_id` with exactly one missing row. -/
theorem C1_missing_image_coalescing_amended :
    (∀ (s : Store.StoreState) (v : Store.CreateContainer)
        (pb : List (String × List Store.Binding)),
      s.containers.any (fun c => c.id == v.id) = false →
      s.imageExists v.image_id = false →
      (∃ c ∈ (Store.create_container s v pb).containers,
          c.id = v.id ∧ c.image_id = none) ∧
      ({ container_id := v.id, image_id := v.image_id } : Store.ContainerMissingImage)
          ∈ (Store.create_container s v pb).container_missing_images) ∧
    (∀ (s : Store.StoreState) (req : Store.CreateImage),
      (∀ c ∈ s.containers,
        ({ container_id := c.id, image_id := req.id } : Store.ContainerMissingImage)
            ∈ s.container_missing_images →
        ∃ c2 ∈ (Store.create_image s req).containers,
          c2.id = c.id ∧ c2.image_id = some req.id) ∧
      (Store.create_image s req).container_missing_images.filter
          (fun r => r.image_id == req.id) = []) ∧
    (∀ (s : Store.StoreState) (v : Store.CreateContainer)
        (pb : List (String × List Store.Binding)),
      Store.ImageRefInv s → s.containers.any (fun c => c.id == v.id) = false →
      Store.ImageRefInv (Store.create_container s v pb)) ∧
    (∀ (s : Store.StoreState) (req : Store.CreateImage),
      Store.ImageRefInv s → Store.ImageRefInv (Store.create_image s req)) ∧
    (∀ (s : Store.StoreState) (req : Store.CreateNetwork)
        (opts : List Store.NetworkDriverOpts),
      Store.ImageRefInv s → Store.ImageRefInv (Store.create_network s req opts)) ∧
    (∀ (s : Store.StoreState) (vol : Store.Volume),
      Store.ImageRefInv s → Store.ImageRefInv (Store.create_volume s vol)) :=
  ⟨fun s v pb hfr himg => Store.create_container_post s v pb hfr himg,
   fun s req => Store.create_image_post s req,
   fun s v pb h hfr => Store.create_container_inv s v pb h hfr,
   fun s req h => Store.create_image_inv s req h,
   fun s req opts h => Store.create_network_inv s req opts h,
   fun s vol h => Store.create_volume_inv s vol h⟩

/-- Witness for the amended C1 at a concrete fresh container in the empty
store. -/
theorem C1_missing_image_coalescing_amended_witness :
    ((∃ c ∈ (Store.create_container {} c1Request1 []).containers,
        c.id = 10 ∧ c.image_id = none) ∧
      ({ container_id := 10, image_id := 1 } : Store.ContainerMissingImage)
          ∈ (Store.create_container {} c1Request1 []).container_missing_images) ∧
    Store.ImageRefInv (Store.create_container {} c1Request1 []) :=
  ⟨C1_missing_image_coalescing_amended.1 {} c1Request1 [] (by decide) (by decide),
   C1_missing_image_coalescing_amended.2.2.1 {} c1Request1 [] (by decide) (by decide)⟩

/-- C2: the claim says `create_volume` resolves the matching
`container_missing_volumes` rows in the same transaction, the way
`create_image` and `create_network` do. The code refutes this:
`create_volume` (store/db.rs lines 129-139) only insert-or-ignores the
volume row — after it runs, the missing row is still there and no
`container_volumes` row exists, while the analogous `create_network`
promotes and deletes its missing rows. -/
theorem C2_create_volume_skips_missing_refs :
    ({ container_id := 10, volume_id := 5 } : Store.ContainerMissingVolume)
        ∈ c2Step1.container_missing_volumes ∧
    (∃ vol ∈ c2Step2.volumes, vol.id = 5) ∧
    ({ container_id := 10, volume_id := 5 } : Store.ContainerMissingVolume)
        ∈ c2Step2.container_missing_volumes ∧
    c2Step2.container_volumes = [] ∧
    ({ container_id := 10, network_id := 7 } : Store.ContainerNetwork)
        ∈ c2Step2n.container_networks ∧
    c2Step2n.container_missing_networks = [] := by
  decide

/-- Witness for C8: a stale local id answered 404, the fallback query by
UUID name succeeds and the fresh engine id replaces the stored one. -/
theorem C8_inspect_by_id_then_name_witness :
    Docker.ContainerId.inspect ⟨some "lid", "u"⟩ c8client
      = Docker.ContainerId.inspect_with ⟨some "lid", "u"⟩ c8client "u" ∧
    (Docker.ContainerId.inspect_with ⟨some "lid", "u"⟩ c8client "u").1.id = some "newid" :=
  ⟨C8_inspect_by_id_then_name.2.1 ⟨some "lid", "u"⟩ c8client "lid" "nf" rfl (by rfl),
   C8_inspect_by_id_then_name.2.2.1 ⟨some "lid", "u"⟩ c8client "u" { id := some "newid" }
     "newid" (by rfl) rfl⟩

/-- C5: when the first WebSocket handshake answers a 4xx client-error
status, `ws_connect` stops backoff immediately and fails permanently with
`TokenAlreadyUsed` (whatever later attempts would do and however much
retry fuel remains), and the session task's trace is exactly one
`Connecting` property publication followed by the unset publication, with
no WebSocket frame sent and the task returning. -/
theorem C5_client_error_is_permanent
    (fuel : Nat) (attempts : Nat → Fwd.ConnectAttempt)
    (cp : List Fwd.Event × Except Fwd.Error Unit) (url : Fwd.RelayUrl)
    (q : String) (st : Nat) (token : String)
    (hq : url.query = some q)
    (h0 : attempts 0 = .err (.http st))
    (h4 : 400 ≤ st) (h5 : st < 500) :
    Fwd.ws_connect fuel attempts url
      = .error (.tokenAlreadyUsed (Fwd.trim_start_matches_session q)) ∧
    Fwd.Forwarder.handle_session ⟨fuel, attempts, cp⟩ url token
      = ([Fwd.sendState token .connecting, Fwd.sendState token .disconnected], .ok ()) ∧
    (Fwd.Forwarder.handle_session ⟨fuel, attempts, cp⟩ url token).1.count
        (Fwd.sendState token .connecting) = 1 ∧
    ∀ e ∈ (Fwd.Forwarder.handle_session ⟨fuel, attempts, cp⟩ url token).1,
      e ≠ Fwd.Event.wsFrame := by
  have hcl : Fwd.status_is_client_error st = true := by
    simp [Fwd.status_is_client_error, h4, h5]
  have h1 : Fwd.ws_connect fuel attempts url
      = .error (.tokenAlreadyUsed (Fwd.trim_start_matches_session q)) := by
    unfold Fwd.ws_connect
    unfold Fwd.retryConnect
    rw [h0]
    simp [hcl, Fwd.get_token, hq]
  have h2 : Fwd.Forwarder.handle_session ⟨fuel, attempts, cp⟩ url token
      = ([Fwd.sendState token .connecting, Fwd.sendState token .disconnected], .ok ()) := by
    unfold Fwd.Forwarder.handle_session Fwd.Forwarder.connect
    rw [show (⟨fuel, attempts, cp⟩ : Fwd.SessionEnv).fuel = fuel from rfl,
        show (⟨fuel, attempts, cp⟩ : Fwd.SessionEnv).attempts = attempts from rfl, h1]
    rfl
  refine ⟨h1, h2, ?_, ?_⟩
  · rw [h2]
    simp [Fwd.sendState, Fwd.sessionStateToAstarte]
  · intro e he
    rw [h2] at he
    simp only [List.mem_cons, List.mem_singleton] at he
    rcases he with he | he | he
    · subst he
      simp [Fwd.sendState]
    · subst he
      simp [Fwd.sendState]
    · exact absurd he (by simp)

/-- Witness for C5 at HTTP 401 on a URL carrying `session=abc`. -/
theorem C5_client_error_is_permanent_witness :
    Fwd.ws_connect 3 (fun _ => .err (.http 401)) ⟨some "session=abc"⟩
      = .error (.tokenAlreadyUsed "abc") ∧
    Fwd.Forwarder.handle_session ⟨3, fun _ => .err (.http 401), ([], .ok ())⟩
        ⟨some "session=abc"⟩ "abc"
      = ([Fwd.sendState "abc" .connecting, Fwd.sendState "abc" .disconnected], .ok ()) := by
  have h := C5_client_error_is_permanent 3 (fun _ => .err (.http 401)) ([], .ok ())
    ⟨some "session=abc"⟩ "session=abc" 401 "abc" rfl rfl (by decide) (by decide)
  exact ⟨h.1.trans (by rfl), h.2.1⟩

/-- C6 counterexample: the claim states the default policy has a
multiplication factor of 2 and no overall deadline; the backoff crate's
defaults used by `ws_connect` have multiplier 1.5 and a 15-minute maximum
elapsed time. -/
theorem C6_counterexample_backoff_defaults :
    ¬ (Fwd.ws_connect_policy.multiplier = 2 ∧
       Fwd.ws_connect_policy.max_elapsed_time_millis = none) := by
  intro h
  have := h.1
  rw [show Fwd.ws_connect_policy.multiplier = (3 : ℚ)/2 from rfl] at this
  norm_num at this

/-- C6 (amended): `ws_connect` retries failed connection attempts under
the backoff crate's default exponential policy: initial interval 500 ms,
multiplication factor 1.5, randomization factor 0.5, maximum interval cap
60 s, and a default overall deadline of 15 minutes (900 000 ms) after
which retries are abandoned; a transient failed attempt is retried (the
loop continues with the next attempt while fuel remains). -/
theorem C6_backoff_defaults_amended :
    Fwd.ws_connect_policy.initial_interval_millis = 500 ∧
    Fwd.ws_connect_policy.multiplier = 3/2 ∧
    Fwd.ws_connect_policy.randomization_factor = 1/2 ∧
    Fwd.ws_connect_policy.max_interval_millis = 60000 ∧
    Fwd.ws_connect_policy.max_elapsed_time_millis = some 900000 ∧
    (∀ (fuel : Nat) (attempts : Nat → Fwd.ConnectAttempt) (url : Fwd.RelayUrl) (st : Nat),
      attempts 0 = .err (.http st) → Fwd.status_is_client_error st = false →
      Fwd.ws_connect (fuel + 1) attempts url = Fwd.retryConnect url attempts fuel 1) := by
  refine ⟨rfl, rfl, rfl, rfl, rfl, ?_⟩
  intro fuel attempts url st h0 hcl
  show Fwd.retryConnect url attempts (fuel + 1) 0 = Fwd.retryConnect url attempts fuel 1
  conv_lhs => unfold Fwd.retryConnect
  rw [h0]
  simp [hcl]

/-- Witness for the amended C6: a transient HTTP 500 then a success. -/
theorem C6_backoff_defaults_amended_witness :
    Fwd.ws_connect_policy.max_elapsed_time_millis = some 900000 ∧
    Fwd.ws_connect 1 (fun i => if i = 0 then .err (.http 500) else .ok) ⟨none⟩
      = Fwd.retryConnect ⟨none⟩ (fun i => if i = 0 then .err (.http 500) else .ok) 0 1 := by
  refine ⟨C6_backoff_defaults_amended.2.2.2.2.1, ?_⟩
  exact C6_backoff_defaults_amended.2.2.2.2.2 0
    (fun i => if i = 0 then .err (.http 500) else .ok) ⟨none⟩ 500 (by decide) (by decide)

/-- C10: `Compatible::deserialize` unwraps the TOML parse, so every input
that is not syntactically valid TOML makes it panic rather than return
`Err`; the `Err` branch of its result is reachable only for inputs that
parse to a table on which schema decoding fails. -/
theorem C10_deserialize_panics_on_invalid_toml :
    (∀ (dl : Cfg.Listener) (parse : String → Option (List (String × Cfg.Toml)))
        (content : String),
      parse content = none →
      Cfg.Compatible.deserialize dl parse content = .panicked) ∧
    (∀ (dl : Cfg.Listener) (parse : String → Option (List (String × Cfg.Toml)))
        (content : String) (r : Except Cfg.DeError Cfg.Compatible),
      Cfg.Compatible.deserialize dl parse content = .returned r →
      ∃ t, parse content = some t ∧ Cfg.decodeCompatible dl t = r) := by
  constructor
  · intro dl parse content h
    unfold Cfg.Compatible.deserialize
    rw [h]
  · intro dl parse content r h
    unfold Cfg.Compatible.deserialize at h
    cases hp : parse content with
    | none =>
      rw [hp] at h
      exact absurd h (by intro hh; cases hh)
    | some t =>
      rw [hp] at h
      refine ⟨t, rfl, ?_⟩
      cases h
      rfl

/-- Witness for C10: a parser failure panics; a parsed empty table
returns the decoder's result. -/
theorem C10_deserialize_panics_on_invalid_toml_witness :
    Cfg.Compatible.deserialize (.socket "127.0.0.1:50052") (fun _ => none) "n?t =toml"
      = .panicked ∧
    ∃ t, (fun (_ : String) => some ([] : List (String × Cfg.Toml))) "x" = some t ∧
      Cfg.decodeCompatible (.socket "127.0.0.1:50052") t
        = Cfg.decodeCompatible (.socket "127.0.0.1:50052") [] :=
  ⟨C10_deserialize_panics_on_invalid_toml.1 (.socket "127.0.0.1:50052")
     (fun _ => none) "n?t =toml" rfl,
   C10_deserialize_panics_on_invalid_toml.2 (.socket "127.0.0.1:50052")
     (fun _ => some []) "x" (Cfg.decodeCompatible (.socket "127.0.0.1:50052") []) rfl⟩
